import Mathlib

/-!
# Bandwidth-saving image proxy (`src/main.js`)

A shallow embedding of the request handler of `src/main.js`: the decision
function `should_process`, the `redirect` helper, and the `.then` / `.catch`
callbacks attached to `axios.get`.  JavaScript values are modelled by small
inductive types, the Express response object by an explicit state record that
every handler step transforms, and a thrown exception by the `Except` monad
carrying the response state reached at the throw.
-/

namespace AxiosCC

/-! ## JavaScript values -/

/-- A JavaScript number as produced by `parseInt`: `NaN` or an integer.
(`-0` is identified with `0`; both satisfy `=== 0`.) -/
inductive JSNum where
  | nan
  | int (n : Int)
deriving DecidableEq, Repr

/-- The JavaScript values the handler stores or reads. -/
inductive JSVal where
  | undefined
  | bool (b : Bool)
  | str (s : String)
  | num (n : JSNum)
deriving DecidableEq, Repr

/-- JavaScript truthiness (`ToBoolean`). -/
def truthy : JSVal → Bool
  | .undefined => false
  | .bool b => b
  | .str s => s.data != []
  | .num .nan => false
  | .num (.int n) => n != 0

/-- Truthiness of a value that is either `undefined` or a string. -/
def truthyStr : Option String → Bool
  | none => false
  | some s => s.data != []

/-- Strict equality `x === 0` on numbers: false for `NaN`. -/
def JSNum.isZero : JSNum → Bool
  | .nan => false
  | .int n => n == 0

/-- Relational `x < k` on numbers: false whenever `x` is `NaN`. -/
def JSNum.lt : JSNum → Int → Bool
  | .nan, _ => false
  | .int n, k => decide (n < k)

/-- Relational `v >= k` where `v` is `undefined` or a number: `undefined`
converts to `NaN`, and every comparison with `NaN` is false. -/
def jsGe : JSVal → Int → Bool
  | .num (.int n), k => decide (k ≤ n)
  | _, _ => false

/-- String method `startsWith`: `p` is a prefix of `s`. -/
def startsWith (s p : String) : Bool := p.data.isPrefixOf s.data

/-- String method `endsWith`: `p` is a suffix of `s`. -/
def endsWith (s p : String) : Bool := p.data.isSuffixOf s.data

/-! ## The decision function -/

def MIN_COMPRESS_LENGTH : Int := 1024

def MIN_TRANSPARENT_COMPRESS_LENGTH : Int := MIN_COMPRESS_LENGTH * 100

/-- The fields of `req.params` that `should_process` destructures. -/
structure Params where
  originType : String
  originSize : JSNum
  webp : JSVal
deriving DecidableEq, Repr

/-- Source function `should_process(req)`, lines 16-29. -/
def should_process (p : Params) : Bool :=
  if !startsWith p.originType "image" then false
  else if p.originSize.isZero then false
  else if truthy p.webp && p.originSize.lt MIN_COMPRESS_LENGTH then false
  else if !truthy p.webp &&
      (endsWith p.originType "png" || endsWith p.originType "gif") &&
      p.originSize.lt MIN_TRANSPARENT_COMPRESS_LENGTH then false
  else true

/-! ## `parseInt` -/

/-- The characters `parseInt` skips at the start of its input (ECMAScript
`WhiteSpace` and `LineTerminator`). -/
def isWhiteSpace (c : Char) : Bool :=
  let n := c.toNat
  n == 9 || n == 10 || n == 11 || n == 12 || n == 13 || n == 32 || n == 160 ||
  n == 5760 || (8192 ≤ n && n ≤ 8202) || n == 8232 || n == 8233 || n == 8239 ||
  n == 8287 || n == 12288 || n == 65279

/-- Value of a character read as a digit (`0-9`, then letters for 10 to 35). -/
def digitValue (c : Char) : Option Nat :=
  let n := c.toNat
  if 48 ≤ n ∧ n ≤ 57 then some (n - 48)
  else if 97 ≤ n ∧ n ≤ 122 then some (n - 87)
  else if 65 ≤ n ∧ n ≤ 90 then some (n - 55)
  else none

/-- Reads the longest prefix of digits below `radix`; `acc` is `none` until a
first digit has been read. -/
def parseDigits (radix : Nat) : List Char → Option Nat → Option Nat
  | [], acc => acc
  | c :: cs, acc =>
    match digitValue c with
    | some d => if d < radix then parseDigits radix cs (some (acc.getD 0 * radix + d)) else acc
    | none => acc

/-- Removes a leading sign and reports whether it was a minus. -/
def splitSign : List Char → Bool × List Char
  | '-' :: r => (true, r)
  | '+' :: r => (false, r)
  | s => (false, s)

/-- Removes a leading `0x` or `0X`, if there is one. -/
def strip0x : List Char → Option (List Char)
  | '0' :: 'x' :: r => some r
  | '0' :: 'X' :: r => some r
  | _ => none

/-- Global `parseInt(input, radix)` where `input` is `undefined` (`none`) or a
string and `radix` is `undefined` (`none`) or a number.  Integers are kept
exact. -/
def parseInt (input : Option String) (radix : Option Nat) : JSNum :=
  let s := (match input with
    | none => "undefined".data
    | some v => v.data).dropWhile isWhiteSpace
  let (neg, s) := splitSign s
  let r := radix.getD 0
  if r != 0 && (r < 2 || 36 < r) then .nan
  else
    let (r, s) :=
      if r == 0 || r == 16 then
        match strip0x s with
        | some rest => (16, rest)
        | none => (if r == 0 then 10 else r, s)
      else (r, s)
    match parseDigits r s none with
    | none => .nan
    | some m => .int (if neg then -(m : Int) else (m : Int))

/-! ## `encodeURI` -/

/-- Upper-case hexadecimal digit. -/
def hexDigit (n : Nat) : Char :=
  if n < 10 then Char.ofNat (48 + n) else Char.ofNat (55 + n)

/-- Percent escape of one byte. -/
def pctByte (b : Nat) : List Char := ['%', hexDigit (b / 16), hexDigit (b % 16)]

/-- UTF-8 encoding of a code point. -/
def utf8Bytes (n : Nat) : List Nat :=
  if n < 128 then [n]
  else if n < 2048 then [192 + n / 64, 128 + n % 64]
  else if n < 65536 then [224 + n / 4096, 128 + n / 64 % 64, 128 + n % 64]
  else [240 + n / 262144, 128 + n / 4096 % 64, 128 + n / 64 % 64, 128 + n % 64]

/-- Characters `encodeURI` leaves alone: letters, digits, the URI reserved
characters, the unreserved marks and `#`. -/
def uriKeep (c : Char) : Bool :=
  c.isAlphanum || ";/?:@&=+$,-_.!~*()#".data.contains c || c.toNat == 39

/-- Global `encodeURI(input)` where `input` is `undefined` or a string. -/
def encodeURI (input : Option String) : String :=
  let s := match input with
    | none => "undefined".data
    | some v => v.data
  ⟨s.flatMap fun c => if uriKeep c then [c] else (utf8Bytes c.toNat).flatMap pctByte⟩

/-! ## The response object -/

/-- A call the `sharp()` instance has accepted, with its arguments.  The
instance is represented by the list of these calls, in the order made. -/
inductive SharpCall where
  | resize (width height : Option Nat)
  | greyscale
  | toFormat (format : String) (quality : JSNum) (progressive optimizeScans : Bool)
deriving DecidableEq, Repr

/-- What has been written to the response body: a literal string, the origin
byte stream piped as is, or the origin byte stream piped through a `sharp`
instance on which `calls` were made. -/
inductive Chunk where
  | text (s : String)
  | origin (data : List Nat)
  | transformed (calls : List SharpCall) (input : List Nat)
deriving DecidableEq, Repr

/-- State of the Express response `res`.  Header names are stored lower-cased,
as Node does; `ends` counts how often the response was finished. -/
structure Res where
  statusCode : Nat
  headers : List (String × JSVal)
  headersSent : Bool
  body : List Chunk
  ends : Nat
deriving DecidableEq, Repr

/-- The response as Express hands it to the route: status 200 and the
`X-Powered-By` header that Express adds by default. -/
def res0 : Res :=
  { statusCode := 200, headers := [("x-powered-by", .str "Express")],
    headersSent := false, body := [], ends := 0 }

/-- ASCII lower-casing of a header name. -/
def lower (s : String) : String := ⟨s.data.map Char.toLower⟩

/-- Node accepts a header name when it is a non-empty HTTP token. -/
def validHeaderName (name : String) : Bool :=
  name.data != [] &&
  name.data.all fun c =>
    c.isAlphanum || "^_-!#$%&*+.|~".data.contains c || c.toNat == 39 || c.toNat == 96

/-- The characters Node accepts in a header value: tab, `0x20-0x7e` and
`0x80-0xff`. -/
def validHeaderChar (c : Char) : Bool :=
  c.toNat == 9 || (32 ≤ c.toNat && c.toNat ≤ 126) || (128 ≤ c.toNat && c.toNat ≤ 255)

/-- Node accepts a header value unless it is `undefined` or contains a character
that is not accepted.  A number or boolean is rendered with accepted characters
only. -/
def validHeaderValue : JSVal → Bool
  | .undefined => false
  | .str s => s.data.all validHeaderChar
  | _ => true

/-- Assignment `headers[key] = value` on the header table: an existing key
keeps its place, a new key goes to the end. -/
def setEntry (key : String) (value : JSVal) :
    List (String × JSVal) → List (String × JSVal)
  | [] => [(key, value)]
  | kv :: rest =>
    if kv.1 == key then (key, value) :: rest else kv :: setEntry key value rest

/-- Response method `res.setHeader(name, value)`: throws (`.error`, carrying the
unchanged state) when the headers were already sent or the name or value is
rejected; otherwise assigns the header under its lower-cased name. -/
def setHeader (res : Res) (name : String) (value : JSVal) : Except Res Res :=
  if res.headersSent || !validHeaderName name || !validHeaderValue value then .error res
  else .ok { res with headers := setEntry (lower name) value res.headers }

/-- Response method `res.removeHeader(name)`. -/
def removeHeader (res : Res) (name : String) : Res :=
  { res with headers := res.headers.filter fun kv => kv.1 != lower name }

/-- Response method `res.getHeader(name)`. -/
def getHeader (res : Res) (name : String) : Option JSVal :=
  res.headers.lookup (lower name)

/-- Response method `res.status(code)`. -/
def status (res : Res) (code : Nat) : Res := { res with statusCode := code }

/-- Response method `res.write(s)`. -/
def write (res : Res) (s : String) : Res :=
  { res with headersSent := true, body := res.body ++ [.text s] }

/-- Response method `res.end()`. -/
def endResponse (res : Res) : Res :=
  { res with headersSent := true, ends := res.ends + 1 }

/-- Stream method `source.pipe(res)`: the source is written to the response,
which is finished when the source ends. -/
def pipe (source : Chunk) (res : Res) : Res :=
  { res with headersSent := true, body := res.body ++ [source], ends := res.ends + 1 }

/-! ## Requests and origin responses -/

/-- The parts of the Express request the handler reads: the query parameters
`url`, `bw` and `l`, each `undefined` (`none`) or a string. -/
structure Request where
  url : Option String
  bw : Option String
  l : Option String
deriving DecidableEq, Repr

/-- The object an `axios` promise resolves with.  Its properties are `data`,
`status`, `statusText`, `headers`, `config` and `request`; the three the handler
can observe are kept.  With `responseType: 'stream'`, `data` is the body
stream.  A JavaScript object holds each header key once. -/
structure AxiosResponse where
  status : Nat
  headers : List (String × String)
  data : List Nat
deriving DecidableEq, Repr

/-- Property read `response.statusCode`: the object has no property of that
name, so the read yields `undefined`. -/
def AxiosResponse.statusCode (_ : AxiosResponse) : JSVal := .undefined

/-- Property read `response.headers[name]`. -/
def AxiosResponse.header (response : AxiosResponse) (name : String) : Option String :=
  response.headers.lookup name

/-- What the origin did with the outbound request: no reply, or the reply left
after `axios` has followed redirects. -/
inductive Origin where
  | failed
  | replied (status : Nat) (headers : List (String × String)) (body : List Nat)
deriving DecidableEq, Repr

/-- Call `axios.get(url, ...)` under the library default `validateStatus`: the
promise resolves for a 2xx reply and rejects for every other reply and for a
network failure. -/
def axios_get : Origin → Except Unit AxiosResponse
  | .failed => .error ()
  | .replied st hs body =>
    if 200 ≤ st ∧ st < 300 then .ok { status := st, headers := hs, data := body }
    else .error ()

/-! ## The handler -/

/-- Source function `redirect(req, res)`, lines 31-42. -/
def redirect (req : Request) (res : Res) : Except Res Res :=
  if res.headersSent then .ok res
  else do
    let res ← setHeader res "content-length" (.num (.int 0))
    let res := removeHeader res "cache-control"
    let res := removeHeader res "expires"
    let res := removeHeader res "date"
    let res := removeHeader res "etag"
    let res := removeHeader res "X-Powered-By"
    let res ← setHeader res "location" (.str (encodeURI req.url))
    .ok (endResponse (status res 302))

/-- Lines 59-65: every origin header is set on the response; a header that
`setHeader` rejects is logged and skipped. -/
def copyHeaders (hs : List (String × String)) (res : Res) : Res :=
  hs.foldl (fun r kv =>
    match setHeader r kv.1 (.str kv.2) with
    | .ok r2 => r2
    | .error _ => r) res

/-- Lines 68-69: `req.params` as `should_process` finds it.  The route `/`
declares no named parameter, so `req.params` starts empty; the handler assigns
`originType` and `originSize`, and `webp` stays `undefined`. -/
def origin_params (response : AxiosResponse) : Params :=
  { originType :=
      (match response.header "content-type" with
       | some t => if t.data != [] then t else ""
       | none => ""),
    originSize := parseInt (response.header "content-length") (some 10),
    webp := .undefined }

/-- The quality settings the webp encoder of `sharp` accepts: the integers
from 1 to 100. -/
def validQuality : JSNum → Bool
  | .nan => false
  | .int n => decide (1 ≤ n) && decide (n ≤ 100)

/-- Method `target_image.toFormat(format, {quality, progressive,
optimizeScans})` of `sharp` for the format `webp`: throws (`.error`, carrying
the unchanged instance) when the quality is not accepted. -/
def toFormat (target_image : List SharpCall) (format : String) (quality : JSNum)
    (progressive optimizeScans : Bool) : Except (List SharpCall) (List SharpCall) :=
  if validQuality quality then
    .ok (target_image ++ [SharpCall.toFormat format quality progressive optimizeScans])
  else .error target_image

/-- Lines 72-93: the calls made on the `sharp()` instance.  The result is
`.error` when `toFormat` throws. -/
def pipeline (req : Request) : Except (List SharpCall) (List SharpCall) :=
  let format := "webp"
  let target_image := [SharpCall.resize none (some 12480)]
  let target_image :=
    if req.bw != some "0" then target_image ++ [SharpCall.greyscale] else target_image
  if truthyStr req.l then
    toFormat target_image format (parseInt req.l none) true true
  else .ok target_image

/-- The calls a `sharp` instance has accepted, whether or not a later call
threw. -/
def callsMade : Except (List SharpCall) (List SharpCall) → List SharpCall
  | .ok calls => calls
  | .error calls => calls

/-- The value of an optional string as a JavaScript value. -/
def ofOptString : Option String → JSVal
  | none => .undefined
  | some s => .str s

/-- The `.then` callback, lines 55-113.  The result is `.error`, carrying the
response state reached, when a statement outside the `try` block throws.  (The
`info` listener, which runs once encoding has finished, is not part of this
synchronous step.) -/
def on_fulfilled (req : Request) (response : AxiosResponse) (res : Res) : Except Res Res :=
  if jsGe response.statusCode 400 then redirect req res
  else do
    let res := copyHeaders response.headers res
    let res ← setHeader res "content-encoding" (.str "identity")
    let params := origin_params response
    if should_process params then
      let format := "webp"
      match pipeline req with
      | .error _ => .error res
      | .ok target_image =>
        let res ← setHeader res "content-type" (.str ("image/" ++ format))
        let res ← setHeader res "x-original-size" (.num params.originSize)
        .ok (pipe (.transformed target_image response.data) res)
    else
      let res ← setHeader res "x-proxy-bypass" (.num (.int 1))
      let res ← setHeader res "content-length" (ofOptString (response.header "content-length"))
      let res := removeHeader res "X-Powered-By"
      .ok (pipe (.origin response.data) res)

/-- The `.catch` callback, lines 113-119. -/
def on_rejected (res : Res) : Res :=
  let res := status res 200
  let res := removeHeader res "X-Powered-By"
  let res := write res "bandwidth-hero-proxy"
  endResponse res

/-- The promise chain `promise.then(on_fulfilled).catch(on_rejected)` run on a
settled promise: the final state of the response. -/
def settle (req : Request) (promise : Except Unit AxiosResponse) : Res :=
  match promise with
  | .error _ => on_rejected res0
  | .ok response =>
    match on_fulfilled req response res0 with
    | .ok res => res
    | .error res => on_rejected res

/-- The route `app.get('/', ...)`, lines 46-120: the response the client gets,
given what the origin did. -/
def handler (req : Request) (origin : Origin) : Res :=
  settle req (axios_get origin)

/-! ## Response states of the branches -/

/-- The response state after the origin headers were copied and
`content-encoding` was set. -/
def identity_res (response : AxiosResponse) : Res :=
  let r := copyHeaders response.headers res0
  { r with headers := setEntry "content-encoding" (.str "identity") r.headers }

/-- The response state the transform branch reaches when the `sharp` instance
accepted `calls`: `content-type` and `x-original-size` are set and the
instance is piped. -/
def transformed_res (calls : List SharpCall) (response : AxiosResponse) : Res :=
  let r := identity_res response
  { r with
    headers := setEntry "x-original-size" (.num (origin_params response).originSize)
      (setEntry "content-type" (.str "image/webp") r.headers),
    headersSent := true,
    body := [.transformed calls response.data],
    ends := 1 }

/-- The response state of the bypass branch before `content-length` is set. -/
def bypass_pending (response : AxiosResponse) : Res :=
  let r := identity_res response
  { r with headers := setEntry "x-proxy-bypass" (.num (.int 1)) r.headers }

/-- The response state the bypass branch reaches when `content-length` is set
to `length`. -/
def bypass_res (response : AxiosResponse) (length : JSVal) : Res :=
  let r := bypass_pending response
  { r with
    headers := (setEntry "content-length" length r.headers).filter
      fun kv => kv.1 != "x-powered-by",
    headersSent := true,
    body := [.origin response.data],
    ends := 1 }

/-! ## Scenarios of the specification -/

/-- Request `?url=http://x/photo.jpg`, without `bw` and `l`. -/
def photoRequest : Request := { url := some "http://x/photo.jpg", bw := none, l := none }

/-- Scenario A: the origin returns a 500000-byte `image/jpeg`. -/
def scenarioA : Origin :=
  .replied 200 [("content-type", "image/jpeg"), ("content-length", "500000")] [1, 2, 3]

/-- The object `axios` resolves with in Scenario A. -/
def photoResponse : AxiosResponse :=
  { status := 200, headers := [("content-type", "image/jpeg"), ("content-length", "500000")],
    data := [1, 2, 3] }

/-- Scenario E: the request carries `bw=0` and `l=40`. -/
def scenarioE : Request := { url := some "http://x/photo.jpg", bw := some "0", l := some "40" }

/-- Request with `l=abc`, a quality that does not parse. -/
def badQualityRequest : Request :=
  { url := some "http://x/photo.jpg", bw := none, l := some "abc" }

/-- An origin reply that is a 1-byte `image/jpeg`. -/
def tinyJpeg : AxiosResponse :=
  { status := 200, headers := [("content-type", "image/jpeg"), ("content-length", "1")],
    data := [7] }

/-- Scenario B: the origin returns a 2000-byte `image/png`. -/
def scenarioB : Origin :=
  .replied 200 [("content-type", "image/png"), ("content-length", "2000")] [1, 2, 3]

/-- Scenario C: the origin returns status 404. -/
def scenarioC : Origin :=
  .replied 404 [("content-type", "text/html"), ("content-length", "9")] [1, 2, 3]

/-- An origin reply without a `content-length` header, as sent with chunked
transfer encoding. -/
def chunkedPage : Origin :=
  .replied 200 [("content-type", "text/html")] [1, 2, 3]

/-- The degraded response: status 200 and the sentinel body. -/
def degraded (headers : List (String × JSVal)) : Res :=
  { statusCode := 200, headers := headers, headersSent := true,
    body := [.text "bandwidth-hero-proxy"], ends := 1 }

/-! ## Properties of `should_process` -/

/-- C1: for a content type `t`, a known length `n ≥ 0` and a boolean `webp` flag,
`should_process` is false exactly when one of the four rules fires (not an
image; length zero; webp and below 1024; not webp, `png` or `gif`, and below
102400) and true otherwise; a non-image type is rejected whatever the length
and flag, and so is a zero length. -/
theorem should_process_rules (t : String) (n : Nat) (webp : Bool) :
    (should_process ⟨t, .int n, .bool webp⟩ = false ↔
      (startsWith t "image" = false ∨ n = 0 ∨ (webp = true ∧ n < 1024) ∨
        (webp = false ∧ (endsWith t "png" = true ∨ endsWith t "gif" = true) ∧ n < 102400))) ∧
    (should_process ⟨t, .int n, .bool webp⟩ = true ↔
      ¬ (startsWith t "image" = false ∨ n = 0 ∨ (webp = true ∧ n < 1024) ∨
        (webp = false ∧ (endsWith t "png" = true ∨ endsWith t "gif" = true) ∧ n < 102400))) ∧
    (∀ (size : JSNum) (w : JSVal),
      startsWith t "image" = false → should_process ⟨t, size, w⟩ = false) ∧
    (∀ w : JSVal, should_process ⟨t, .int 0, w⟩ = false) := by
  refine ⟨?_, ?_, ?_, ?_⟩
  · simp only [should_process]
    generalize startsWith t "image" = a
    generalize endsWith t "png" = b
    generalize endsWith t "gif" = c
    by_cases h0 : n = 0 <;> by_cases h1 : n < 1024 <;> by_cases h2 : n < 102400 <;>
      cases webp <;> cases a <;> cases b <;> cases c <;>
      simp [JSNum.isZero, JSNum.lt, truthy, MIN_TRANSPARENT_COMPRESS_LENGTH,
        MIN_COMPRESS_LENGTH, h0, h1, h2]
  · simp only [should_process]
    generalize startsWith t "image" = a
    generalize endsWith t "png" = b
    generalize endsWith t "gif" = c
    by_cases h0 : n = 0 <;> by_cases h1 : n < 1024 <;> by_cases h2 : n < 102400 <;>
      cases webp <;> cases a <;> cases b <;> cases c <;>
      simp [JSNum.isZero, JSNum.lt, truthy, MIN_TRANSPARENT_COMPRESS_LENGTH,
        MIN_COMPRESS_LENGTH, h0, h1, h2]
  · intro size w h
    simp [should_process, h]
  · intro w
    simp [should_process, JSNum.isZero]

/-- C7: when webp is requested and the content type starts with `image`,
`should_process` is false for every length below 1024 and true for every
length from 1024 on, hence monotonic in the length. -/
theorem should_process_webp_monotonic (t : String) (w : JSVal)
    (ht : startsWith t "image" = true) (hw : truthy w = true) :
    (∀ n : Int, n < 1024 → should_process ⟨t, .int n, w⟩ = false) ∧
    (∀ n : Int, 1024 ≤ n → should_process ⟨t, .int n, w⟩ = true) ∧
    (∀ a b : Int, a ≤ b → should_process ⟨t, .int a, w⟩ = true →
      should_process ⟨t, .int b, w⟩ = true) := by
  have key : ∀ n : Int, should_process ⟨t, .int n, w⟩ = decide (1024 ≤ n) := by
    intro n
    by_cases h0 : n = 0
    · subst h0; simp [should_process, ht, JSNum.isZero]
    · by_cases h1 : n < 1024
      · simp [should_process, ht, hw, JSNum.isZero, JSNum.lt, MIN_COMPRESS_LENGTH, h0, h1]
      · simp [should_process, ht, hw, JSNum.isZero, JSNum.lt, MIN_COMPRESS_LENGTH, h0, h1]
        omega
  refine ⟨?_, ?_, ?_⟩
  · intro n hn; rw [key]; simp; omega
  · intro n hn; rw [key]; simp; omega
  · intro a b hab ha
    rw [key] at ha ⊢
    simp at ha ⊢
    omega

/-- Witness for C7: `image/png` with the flag set. -/
theorem should_process_webp_monotonic_witness :
    (∀ n : Int, n < 1024 → should_process ⟨"image/png", .int n, .bool true⟩ = false) ∧
    (∀ n : Int, 1024 ≤ n → should_process ⟨"image/png", .int n, .bool true⟩ = true) ∧
    (∀ a b : Int, a ≤ b → should_process ⟨"image/png", .int a, .bool true⟩ = true →
      should_process ⟨"image/png", .int b, .bool true⟩ = true) :=
  should_process_webp_monotonic "image/png" (.bool true) (by decide) (by decide)

/-- C4, as the code behaves: a missing `content-length` parses to `NaN`, and
with a `NaN` length `should_process` returns true exactly when the content type
starts with `image`, whatever the flag and the suffix of the type. -/
theorem should_process_unknown_length (t : String) (w : JSVal) :
    parseInt none (some 10) = .nan ∧
    should_process ⟨t, .nan, w⟩ = startsWith t "image" := by
  refine ⟨by decide, ?_⟩
  cases h : startsWith t "image" <;> simp [should_process, h, JSNum.isZero, JSNum.lt]

/-- C4 fails as stated: an `image/jpeg` response without `content-length` has a
`NaN` length and `should_process` returns true for it. -/
theorem should_process_unknown_length_counterexample :
    (origin_params ⟨200, [("content-type", "image/jpeg")], []⟩).originSize = .nan ∧
    should_process (origin_params ⟨200, [("content-type", "image/jpeg")], []⟩) = true := by
  decide

/-! ## Header lookups after `setHeader` and `removeHeader` -/

/-- Looking up a name that was just removed finds nothing. -/
theorem lookup_filter_same (l : List (String × JSVal)) (a : String) :
    (l.filter fun kv => kv.1 != a).lookup a = none := by
  induction l with
  | nil => rfl
  | cons kv rest ih =>
    obtain ⟨k, x⟩ := kv
    by_cases hk : k = a
    · have h1 : (k != a) = false := by simp [hk]
      rw [List.filter_cons_of_neg (by simp [h1])]
      exact ih
    · have h1 : (k != a) = true := by simpa using hk
      have h2 : (a == k) = false := by simpa using fun h => hk h.symm
      rw [List.filter_cons_of_pos (by simp [h1]), List.lookup_cons, h2]
      exact ih

/-- Removing a name does not change the lookup of another name. -/
theorem lookup_filter_other (l : List (String × JSVal)) (a b : String) (hab : b ≠ a) :
    (l.filter fun kv => kv.1 != a).lookup b = l.lookup b := by
  induction l with
  | nil => rfl
  | cons kv rest ih =>
    obtain ⟨k, x⟩ := kv
    by_cases hk : k = a
    · have h1 : (k != a) = false := by simp [hk]
      have h2 : (b == k) = false := by simpa [hk] using hab
      rw [List.filter_cons_of_neg (by simp [h1]), List.lookup_cons, h2]
      exact ih
    · have h1 : (k != a) = true := by simpa using hk
      rw [List.filter_cons_of_pos (by simp [h1]), List.lookup_cons, List.lookup_cons, ih]

/-- A header that was just assigned is read back. -/
theorem lookup_setEntry_same (l : List (String × JSVal)) (a : String) (v : JSVal) :
    (setEntry a v l).lookup a = some v := by
  induction l with
  | nil => simp [setEntry, List.lookup]
  | cons kv rest ih =>
    obtain ⟨k, x⟩ := kv
    by_cases hk : k = a
    · simp [setEntry, hk, List.lookup]
    · have h1 : (k == a) = false := by simpa using hk
      have h2 : (a == k) = false := by simpa using fun h => hk h.symm
      simp only [setEntry, h1, Bool.false_eq_true, if_false, List.lookup_cons, h2]
      exact ih

/-- Assigning a header does not change the lookup of another name. -/
theorem lookup_setEntry_other (l : List (String × JSVal)) (a b : String) (v : JSVal)
    (hab : b ≠ a) :
    (setEntry a v l).lookup b = l.lookup b := by
  have hne : (b == a) = false := by simpa using hab
  induction l with
  | nil => simp [setEntry, List.lookup, hne]
  | cons kv rest ih =>
    obtain ⟨k, x⟩ := kv
    by_cases hk : k = a
    · subst hk
      simp [setEntry, List.lookup_cons, hne]
    · have h1 : (k == a) = false := by simpa using hk
      simp only [setEntry, h1, Bool.false_eq_true, if_false, List.lookup_cons, ih]

/-! ## Properties of the handler -/

/-- A successful `setHeader` leaves everything but the headers unchanged. -/
theorem setHeader_ok {res r : Res} {name : String} {value : JSVal}
    (h : setHeader res name value = .ok r) :
    r.statusCode = res.statusCode ∧ r.headersSent = res.headersSent ∧
      r.body = res.body ∧ r.ends = res.ends := by
  unfold setHeader at h
  split at h
  · cases h
  · cases h; simp

/-- Copying the origin headers changes nothing but the headers. -/
theorem copyHeaders_frame (hs : List (String × String)) (res : Res) :
    (copyHeaders hs res).statusCode = res.statusCode ∧
      (copyHeaders hs res).headersSent = res.headersSent ∧
      (copyHeaders hs res).body = res.body ∧ (copyHeaders hs res).ends = res.ends := by
  induction hs generalizing res with
  | nil => simp [copyHeaders]
  | cons kv rest ih =>
    have step : copyHeaders (kv :: rest) res =
        copyHeaders rest (match setHeader res kv.1 (.str kv.2) with
          | .ok r2 => r2
          | .error _ => res) := by
      simp [copyHeaders]
    rw [step]
    cases hset : setHeader res kv.1 (.str kv.2) with
    | error e => simpa using ih res
    | ok r2 =>
      obtain ⟨h1, h2, h3, h4⟩ := setHeader_ok hset
      obtain ⟨i1, i2, i3, i4⟩ := ih r2
      simp only [i1, i2, i3, i4, h1, h2, h3, h4, and_self]

/-- When `should_process` accepts the origin response and `sharp` accepts every
call, the `.then` callback completes in the transform branch. -/
theorem on_fulfilled_transform (req : Request) (response : AxiosResponse)
    (calls : List SharpCall)
    (h : should_process (origin_params response) = true)
    (hp : pipeline req = .ok calls) :
    on_fulfilled req response res0 = .ok (transformed_res calls response) := by
  obtain ⟨f1, f2, f3, f4⟩ := copyHeaders_frame response.headers res0
  have s0 : res0.headersSent = false := rfl
  have n1 : validHeaderName "content-encoding" = true := by decide
  have n2 : validHeaderName "content-type" = true := by decide
  have n3 : validHeaderName "x-original-size" = true := by decide
  have v1 : validHeaderValue (.str "identity") = true := by decide
  have v2 : validHeaderValue (.str "image/webp") = true := by decide
  have v3 : validHeaderValue (.num (origin_params response).originSize) = true := rfl
  have l1 : lower "content-encoding" = "content-encoding" := by decide
  have l2 : lower "content-type" = "content-type" := by decide
  have l3 : lower "x-original-size" = "x-original-size" := by decide
  have a1 : "image/" ++ "webp" = "image/webp" := by decide
  simp [on_fulfilled, AxiosResponse.statusCode, jsGe, h, hp, setHeader, f1, f2, f3, f4, s0, n1,
    n2, n3, v1, v2, v3, l1, l2, l3, a1, pipe, transformed_res, identity_res, bind, Except.bind]
  simp [res0]

/-- When `should_process` accepts the origin response and a call on the `sharp`
instance throws, the `.then` callback throws after `content-encoding` was
set. -/
theorem on_fulfilled_throws (req : Request) (response : AxiosResponse)
    (calls : List SharpCall)
    (h : should_process (origin_params response) = true)
    (hp : pipeline req = .error calls) :
    on_fulfilled req response res0 = .error (identity_res response) := by
  obtain ⟨f1, f2, f3, f4⟩ := copyHeaders_frame response.headers res0
  have s0 : res0.headersSent = false := rfl
  have n1 : validHeaderName "content-encoding" = true := by decide
  have v1 : validHeaderValue (.str "identity") = true := by decide
  have l1 : lower "content-encoding" = "content-encoding" := by decide
  simp [on_fulfilled, AxiosResponse.statusCode, jsGe, h, hp, setHeader, f1, f2, f3, f4, s0, n1,
    v1, l1, identity_res, bind, Except.bind]

/-- When `should_process` rejects the origin response, the `.then` callback
completes in the bypass branch if `setHeader` accepts the origin
`content-length`, and throws otherwise. -/
theorem on_fulfilled_bypass (req : Request) (response : AxiosResponse)
    (h : should_process (origin_params response) = false) :
    on_fulfilled req response res0 =
      if validHeaderValue (ofOptString (response.header "content-length")) then
        .ok (bypass_res response (ofOptString (response.header "content-length")))
      else .error (bypass_pending response) := by
  obtain ⟨f1, f2, f3, f4⟩ := copyHeaders_frame response.headers res0
  have s0 : res0.headersSent = false := rfl
  have n1 : validHeaderName "content-encoding" = true := by decide
  have n2 : validHeaderName "x-proxy-bypass" = true := by decide
  have n3 : validHeaderName "content-length" = true := by decide
  have v1 : validHeaderValue (.str "identity") = true := by decide
  have l1 : lower "content-encoding" = "content-encoding" := by decide
  have l2 : lower "x-proxy-bypass" = "x-proxy-bypass" := by decide
  have l3 : lower "content-length" = "content-length" := by decide
  have l4 : lower "X-Powered-By" = "x-powered-by" := by decide
  have v2 : validHeaderValue (.num (.int 1)) = true := rfl
  cases hv : validHeaderValue (ofOptString (response.header "content-length")) <;>
    simp [on_fulfilled, AxiosResponse.statusCode, jsGe, h, setHeader, f1, f2, f3, f4, s0, n1,
      n2, n3, v1, v2, l1, l2, l3, l4, hv, pipe, removeHeader, bypass_res,
      bypass_pending, identity_res, bind, Except.bind]
  all_goals simp [res0]

/-- After the promise resolved with a response that `should_process` accepts,
and with every `sharp` call accepted, the final response is the one of the
transform branch. -/
theorem settle_transform (req : Request) (response : AxiosResponse) (calls : List SharpCall)
    (h : should_process (origin_params response) = true)
    (hp : pipeline req = .ok calls) :
    settle req (.ok response) = transformed_res calls response := by
  simp [settle, on_fulfilled_transform req response calls h hp]

/-- After the promise resolved with a response that `should_process` accepts,
a throwing `sharp` call leads to the `.catch` callback. -/
theorem settle_throws (req : Request) (response : AxiosResponse) (calls : List SharpCall)
    (h : should_process (origin_params response) = true)
    (hp : pipeline req = .error calls) :
    settle req (.ok response) = on_rejected (identity_res response) := by
  simp [settle, on_fulfilled_throws req response calls h hp]

/-- The body sent by the `.catch` callback after a throw in the `.then`
callback is the sentinel string. -/
theorem on_rejected_identity_body (response : AxiosResponse) :
    (on_rejected (identity_res response)).body = [.text "bandwidth-hero-proxy"] := by
  obtain ⟨_, _, f3, _⟩ := copyHeaders_frame response.headers res0
  simp [on_rejected, endResponse, write, removeHeader, status, identity_res, f3]
  rfl

/-- The quality settings `sharp` accepts are the integers from 1 to 100. -/
theorem validQuality_iff (q : JSNum) :
    validQuality q = true ↔ ∃ n : Int, q = .int n ∧ 1 ≤ n ∧ n ≤ 100 := by
  cases q with
  | nan => simp [validQuality]
  | int n => simp [validQuality]

/-- Truthiness of an optional string: it is present and not empty. -/
theorem truthyStr_iff (l : Option String) :
    truthyStr l = true ↔ ∃ v, l = some v ∧ v ≠ "" := by
  cases l with
  | none => simp [truthyStr]
  | some v =>
    have : v.data = [] ↔ v = "" := by
      constructor
      · intro hv; cases v; simp_all
      · intro hv; subst hv; rfl
    simp [truthyStr, this]

/-- C9: on every request the handler decides to transform, the first call on
the `sharp` instance is a resize to height 12480 with the width left open, no
other resize is made, and greyscale is applied exactly when `bw` is not the
string `"0"`; when the instance accepts every call, that instance is what is
piped to the client. -/
theorem transform_resize_greyscale (req : Request) (response : AxiosResponse)
    (h : should_process (origin_params response) = true) :
    (callsMade (pipeline req)).head? = some (.resize none (some 12480)) ∧
    (∀ w ht, SharpCall.resize w ht ∈ callsMade (pipeline req) → w = none ∧ ht = some 12480) ∧
    (SharpCall.greyscale ∈ callsMade (pipeline req) ↔ req.bw ≠ some "0") ∧
    (∀ calls, pipeline req = .ok calls →
      (settle req (.ok response)).body = [.transformed calls response.data]) := by
  refine ⟨?_, ?_, ?_, ?_⟩
  · unfold pipeline toFormat
    by_cases hb : req.bw = some "0" <;> by_cases hl : truthyStr req.l = true <;>
      by_cases hq : validQuality (parseInt req.l none) = true <;>
      simp [hb, hl, hq, callsMade]
  · intro w ht
    unfold pipeline toFormat
    by_cases hb : req.bw = some "0" <;> by_cases hl : truthyStr req.l = true <;>
      by_cases hq : validQuality (parseInt req.l none) = true <;>
      simp [hb, hl, hq, callsMade]
  · unfold pipeline toFormat
    by_cases hb : req.bw = some "0" <;> by_cases hl : truthyStr req.l = true <;>
      by_cases hq : validQuality (parseInt req.l none) = true <;>
      simp [hb, hl, hq, callsMade]
  · intro calls hp
    rw [settle_transform req response calls h hp]
    rfl

/-- Witness for C9: Scenario A requested with `bw=0`. -/
theorem transform_resize_greyscale_witness :
    pipeline ⟨some "http://x/photo.jpg", some "0", none⟩ = .ok [.resize none (some 12480)] ∧
    ((callsMade (pipeline ⟨some "http://x/photo.jpg", some "0", none⟩)).head? =
      some (.resize none (some 12480)) ∧
    (∀ w ht, SharpCall.resize w ht ∈
        callsMade (pipeline ⟨some "http://x/photo.jpg", some "0", none⟩) →
      w = none ∧ ht = some 12480) ∧
    (SharpCall.greyscale ∈ callsMade (pipeline ⟨some "http://x/photo.jpg", some "0", none⟩) ↔
      (some "0" : Option String) ≠ some "0") ∧
    (∀ calls, pipeline ⟨some "http://x/photo.jpg", some "0", none⟩ = .ok calls →
      (settle ⟨some "http://x/photo.jpg", some "0", none⟩
          (.ok ⟨200, [("content-type", "image/jpeg"), ("content-length", "500000")],
            [1, 2, 3]⟩)).body =
        [.transformed calls [1, 2, 3]])) :=
  ⟨rfl, transform_resize_greyscale ⟨some "http://x/photo.jpg", some "0", none⟩
    ⟨200, [("content-type", "image/jpeg"), ("content-length", "500000")], [1, 2, 3]⟩
    (by decide)⟩

/-- C8, as the code behaves: on a request the handler decides to transform,
no quality setting is passed when `l` is absent or empty; when `l` is not empty
and `parseInt(l)` is an integer from 1 to 100, `toFormat` is called with format
`webp` and that quality and the transformed stream is sent; when `l` is not
empty and `parseInt(l)` is anything else, `toFormat` throws and the sentinel
body is sent. -/
theorem transform_quality (req : Request) (response : AxiosResponse)
    (h : should_process (origin_params response) = true) :
    (truthyStr req.l = false →
      ∃ calls, pipeline req = .ok calls ∧
        (∀ f q p o, SharpCall.toFormat f q p o ∉ calls) ∧
        (settle req (.ok response)).body = [.transformed calls response.data]) ∧
    (truthyStr req.l = true → validQuality (parseInt req.l none) = true →
      ∃ calls, pipeline req = .ok calls ∧
        (∀ f q p o, SharpCall.toFormat f q p o ∈ calls ↔
          (f = "webp" ∧ q = parseInt req.l none ∧ p = true ∧ o = true)) ∧
        (settle req (.ok response)).body = [.transformed calls response.data]) ∧
    (truthyStr req.l = true → validQuality (parseInt req.l none) = false →
      (∃ calls, pipeline req = .error calls) ∧
        (settle req (.ok response)).body = [.text "bandwidth-hero-proxy"]) ∧
    (truthyStr req.l = true ↔ ∃ v, req.l = some v ∧ v ≠ "") ∧
    (∀ q, validQuality q = true ↔ ∃ n : Int, q = .int n ∧ 1 ≤ n ∧ n ≤ 100) := by
  refine ⟨?_, ?_, ?_, truthyStr_iff req.l, validQuality_iff⟩
  · intro hl
    have hp : ∃ calls, pipeline req = .ok calls ∧
        ∀ f q p o, SharpCall.toFormat f q p o ∉ calls := by
      unfold pipeline
      by_cases hb : req.bw = some "0" <;> simp [hb, hl]
    obtain ⟨calls, hp, hn⟩ := hp
    exact ⟨calls, hp, hn, by rw [settle_transform req response calls h hp]; rfl⟩
  · intro hl hq
    have hp : ∃ calls, pipeline req = .ok calls ∧
        ∀ f q p o, SharpCall.toFormat f q p o ∈ calls ↔
          (f = "webp" ∧ q = parseInt req.l none ∧ p = true ∧ o = true) := by
      unfold pipeline toFormat
      by_cases hb : req.bw = some "0" <;> simp [hb, hl, hq]
    obtain ⟨calls, hp, hn⟩ := hp
    exact ⟨calls, hp, hn, by rw [settle_transform req response calls h hp]; rfl⟩
  · intro hl hq
    have hp : ∃ calls, pipeline req = .error calls := by
      unfold pipeline toFormat
      by_cases hb : req.bw = some "0" <;> simp [hb, hl, hq]
    refine ⟨hp, ?_⟩
    obtain ⟨calls, hp⟩ := hp
    rw [settle_throws req response calls h hp]
    exact on_rejected_identity_body response

/-- Witness for C8: Scenario E, `bw=0` and `l=40`, gives quality 40. -/
theorem transform_quality_witness :
    parseInt (some "40") none = .int 40 ∧
    pipeline scenarioE =
      .ok [.resize none (some 12480), .toFormat "webp" (.int 40) true true] ∧
    ((truthyStr scenarioE.l = false →
      ∃ calls, pipeline scenarioE = .ok calls ∧
        (∀ f q p o, SharpCall.toFormat f q p o ∉ calls) ∧
        (settle scenarioE (.ok photoResponse)).body =
          [.transformed calls photoResponse.data]) ∧
    (truthyStr scenarioE.l = true → validQuality (parseInt scenarioE.l none) = true →
      ∃ calls, pipeline scenarioE = .ok calls ∧
        (∀ f q p o, SharpCall.toFormat f q p o ∈ calls ↔
          (f = "webp" ∧ q = parseInt scenarioE.l none ∧ p = true ∧ o = true)) ∧
        (settle scenarioE (.ok photoResponse)).body =
          [.transformed calls photoResponse.data]) ∧
    (truthyStr scenarioE.l = true → validQuality (parseInt scenarioE.l none) = false →
      (∃ calls, pipeline scenarioE = .error calls) ∧
        (settle scenarioE (.ok photoResponse)).body = [.text "bandwidth-hero-proxy"]) ∧
    (truthyStr scenarioE.l = true ↔ ∃ v, scenarioE.l = some v ∧ v ≠ "") ∧
    (∀ q, validQuality q = true ↔ ∃ n : Int, q = .int n ∧ 1 ≤ n ∧ n ≤ 100)) :=
  ⟨by decide, rfl, transform_quality scenarioE photoResponse (by decide)⟩

/-- C8 fails as stated: with `l=abc` on Scenario A the handler decides to
transform and calls `toFormat` with quality `NaN`; the call throws, and the
client gets the sentinel body, not an image encoded at the default quality. -/
theorem transform_quality_counterexample :
    should_process (origin_params photoResponse) = true ∧
    parseInt badQualityRequest.l none = .nan ∧
    pipeline badQualityRequest = .error [.resize none (some 12480), .greyscale] ∧
    handler badQualityRequest scenarioA =
      degraded [("content-type", .str "image/jpeg"), ("content-length", .str "500000"),
        ("content-encoding", .str "identity")] ∧
    (handler badQualityRequest scenarioA).body = [.text "bandwidth-hero-proxy"] := by
  refine ⟨by decide, by decide, rfl, by decide, by decide⟩

/-- C5, the code at Scenario A without `l`: the response is labelled
`content-type: image/webp`, but the only calls made on the `sharp` instance are
`resize` and `greyscale`; no output format is set. -/
theorem scenarioA_format_not_set :
    getHeader (handler photoRequest scenarioA) "content-type" = some (.str "image/webp") ∧
    (handler photoRequest scenarioA).body =
      [.transformed [.resize none (some 12480), .greyscale] [1, 2, 3]] ∧
    pipeline photoRequest = .ok [.resize none (some 12480), .greyscale] ∧
    (∀ f q p o, SharpCall.toFormat f q p o ∉ callsMade (pipeline photoRequest)) := by
  refine ⟨by decide, by decide, rfl, ?_⟩
  intro f q p o
  simp [pipeline, photoRequest, truthyStr, callsMade]

/-- C10: the handler leaves `webp` undefined, so its decision is
`should_process` with the flag off; an origin response whose type starts with
`image`, does not end in `png` or `gif`, and whose length is a non-zero integer
is accepted: the handler takes the transform branch, never the bypass, and pipes
the `sharp` instance whenever the instance accepts every call.  A 1-byte
`image/jpeg` is accepted and transformed, which the 1024-byte rule would
reject if the flag were on. -/
theorem handler_decision_ignores_webp (req : Request) (response : AxiosResponse) :
    (origin_params response).webp = .undefined ∧
    should_process (origin_params response) =
      should_process { origin_params response with webp := .bool false } ∧
    (∀ n : Int, startsWith (origin_params response).originType "image" = true →
      endsWith (origin_params response).originType "png" = false →
      endsWith (origin_params response).originType "gif" = false →
      (origin_params response).originSize = .int n → n ≠ 0 →
      should_process (origin_params response) = true ∧
        (∀ calls, pipeline req = .ok calls →
          (settle req (.ok response)).body = [.transformed calls response.data]) ∧
        (settle req (.ok response)).body ≠ [.origin response.data]) ∧
    should_process (origin_params tinyJpeg) = true ∧
    should_process { origin_params tinyJpeg with webp := .bool true } = false ∧
    (settle photoRequest (.ok tinyJpeg)).body =
      [.transformed [.resize none (some 12480), .greyscale] [7]] := by
  refine ⟨rfl, ?_, ?_, by decide, by decide, by decide⟩
  · simp [should_process, origin_params, truthy]
  · intro n h1 h2 h3 h4 h5
    have hp : should_process (origin_params response) = true := by
      have hw : (origin_params response).webp = .undefined := rfl
      simp [should_process, h1, h2, h3, h4, h5, hw, truthy, JSNum.isZero]
    refine ⟨hp, ?_, ?_⟩
    · intro calls hc
      rw [settle_transform req response calls hp hc]
      rfl
    · cases hc : pipeline req with
      | ok calls =>
        rw [settle_transform req response calls hp hc]
        simp [transformed_res]
      | error calls =>
        rw [settle_throws req response calls hp hc, on_rejected_identity_body]
        simp

/-- C3: when the fetch promise rejects, the client gets one response, with
status 200 (not a 5xx), the sentinel body, and none of `X-Powered-By`,
`x-proxy-bypass` and `x-original-size`. -/
theorem fetch_failure_degraded (req : Request) (origin : Origin)
    (h : axios_get origin = .error ()) :
    handler req origin = degraded [] ∧
    (handler req origin).statusCode = 200 ∧ ¬ 500 ≤ (handler req origin).statusCode ∧
    (handler req origin).body = [.text "bandwidth-hero-proxy"] ∧
    (handler req origin).ends = 1 ∧
    getHeader (handler req origin) "X-Powered-By" = none ∧
    getHeader (handler req origin) "x-proxy-bypass" = none ∧
    getHeader (handler req origin) "x-original-size" = none := by
  have e : handler req origin = degraded [] := by
    simp only [handler, h, settle]
    decide
  rw [e]
  decide

/-- Witness for C3: Scenario D, the origin cannot be reached. -/
theorem fetch_failure_degraded_witness :
    handler photoRequest .failed = degraded [] ∧
    (handler photoRequest .failed).statusCode = 200 ∧
    ¬ 500 ≤ (handler photoRequest .failed).statusCode ∧
    (handler photoRequest .failed).body = [.text "bandwidth-hero-proxy"] ∧
    (handler photoRequest .failed).ends = 1 ∧
    getHeader (handler photoRequest .failed) "X-Powered-By" = none ∧
    getHeader (handler photoRequest .failed) "x-proxy-bypass" = none ∧
    getHeader (handler photoRequest .failed) "x-original-size" = none :=
  fetch_failure_degraded photoRequest .failed rfl

/-- Every response of the handler has status 200: the redirect branch, guarded
by `response.statusCode >= 400`, is never taken. -/
theorem handler_status (req : Request) (origin : Origin) :
    (handler req origin).statusCode = 200 := by
  unfold handler settle
  cases axios_get origin with
  | error e => rfl
  | ok response =>
    obtain ⟨f1, _, _, _⟩ := copyHeaders_frame response.headers res0
    cases hp : should_process (origin_params response) with
    | true =>
      cases hc : pipeline req with
      | ok calls =>
        simp only [on_fulfilled_transform req response calls hp hc]
        simpa [transformed_res, identity_res] using f1
      | error calls =>
        simp only [on_fulfilled_throws req response calls hp hc]
        rfl
    | false =>
      simp only [on_fulfilled_bypass req response hp]
      cases validHeaderValue (ofOptString (response.header "content-length")) with
      | false => rfl
      | true => simpa [bypass_res, bypass_pending, identity_res] using f1

/-! ## The redirect function -/

/-- A hexadecimal digit is accepted in a header value. -/
theorem hexDigit_valid (k : Nat) (h : k < 16) : validHeaderChar (hexDigit k) = true := by
  interval_cases k <;> decide

/-- A character is a code point below `0x110000`. -/
theorem char_toNat_lt (c : Char) : c.toNat < 1114112 := by
  have := c.valid
  simp only [UInt32.isValidChar, Nat.isValidChar] at this
  simp only [Char.toNat]
  omega

/-- The characters `encodeURI` keeps are accepted in a header value. -/
theorem uriKeep_valid (c : Char) (h : uriKeep c = true) : validHeaderChar c = true := by
  simp only [uriKeep, Bool.or_eq_true] at h
  rcases h with (h | h) | h
  · simp only [Char.isAlphanum, Char.isAlpha, Char.isUpper, Char.isLower, Char.isDigit,
      Bool.or_eq_true, Bool.and_eq_true, decide_eq_true_eq] at h
    simp only [validHeaderChar, Char.toNat]
    simp only [UInt32.le_def, Fin.le_def] at h
    simp [BitVec.le_def, UInt32.toNat] at h ⊢
    omega
  · simp at h
    rcases h with h | h | h | h | h | h | h | h | h | h | h | h | h | h | h | h | h | h | h <;>
      subst h <;> decide
  · simp only [validHeaderChar]
    simp at h
    simp [h]

/-- The UTF-8 encoding of a code point consists of bytes. -/
theorem utf8Bytes_lt (n : Nat) (h : n < 1114112) : ∀ b ∈ utf8Bytes n, b < 256 := by
  intro b hb
  unfold utf8Bytes at hb
  split_ifs at hb <;> simp at hb <;> omega

/-- A percent escape is accepted in a header value. -/
theorem pctByte_valid (b : Nat) (h : b < 256) : ∀ c ∈ pctByte b, validHeaderChar c = true := by
  intro c hc
  simp only [pctByte, List.mem_cons, List.mem_singleton, List.not_mem_nil, or_false] at hc
  rcases hc with hc | hc | hc
  · subst hc; decide
  · subst hc; exact hexDigit_valid _ (by omega)
  · subst hc; exact hexDigit_valid _ (by omega)

/-- The result of `encodeURI` is always accepted as a header value. -/
theorem encodeURI_valid (input : Option String) :
    validHeaderValue (.str (encodeURI input)) = true := by
  simp only [validHeaderValue, encodeURI, List.all_eq_true, List.mem_flatMap]
  rintro x ⟨c, -, hx⟩
  by_cases hk : uriKeep c = true
  · simp only [hk, if_true, List.mem_singleton] at hx
    subst hx; exact uriKeep_valid x hk
  · simp only [hk, Bool.false_eq_true, if_false, List.mem_flatMap] at hx
    obtain ⟨b, hb, hx⟩ := hx
    exact pctByte_valid b (utf8Bytes_lt _ (char_toNat_lt c) b hb) x hx

/-- The function `redirect`, run on a fresh response, answers every request
with status 302, `content-length` 0 and the encoded `url` as `location`; the
caching headers and `X-Powered-By` are absent. -/
theorem redirect_fresh (req : Request) :
    redirect req res0 = .ok
      { statusCode := 302,
        headers := [("content-length", .num (.int 0)), ("location", .str (encodeURI req.url))],
        headersSent := true, body := [], ends := 1 } := by
  have n1 : validHeaderName "content-length" = true := by decide
  have n2 : validHeaderName "location" = true := by decide
  have l1 : lower "content-length" = "content-length" := by decide
  have l2 : lower "location" = "location" := by decide
  have l3 : lower "cache-control" = "cache-control" := by decide
  have l4 : lower "expires" = "expires" := by decide
  have l5 : lower "date" = "date" := by decide
  have l6 : lower "etag" = "etag" := by decide
  have l7 : lower "X-Powered-By" = "x-powered-by" := by decide
  have v1 : validHeaderValue (.num (.int 0)) = true := rfl
  simp [redirect, res0, setHeader, removeHeader, status, endResponse, n1, n2, l1, l2, l3, l4,
    l5, l6, l7, v1, encodeURI_valid, bind, Except.bind]
  rfl

/-- The function `redirect` on a fresh response yields the redirect policy:
status 302, `content-length` 0 and the encoded URL as `location`. -/
theorem redirect_policy :
    redirect photoRequest res0 = .ok
      { statusCode := 302,
        headers := [("content-length", .num (.int 0)), ("location", .str "http://x/photo.jpg")],
        headersSent := true, body := [], ends := 1 } := by
  rfl

/-- C2, the code at Scenario C: for an origin status 404 the promise rejects and
the client gets the degraded 200 response without a `location` header; had the
promise resolved with that reply, the gate `response.statusCode >= 400` would
read `undefined` and the bypass branch would answer with status 200. -/
theorem scenarioC_not_redirected :
    axios_get scenarioC = .error () ∧
    handler photoRequest scenarioC = degraded [] ∧
    getHeader (handler photoRequest scenarioC) "location" = none ∧
    jsGe (AxiosResponse.statusCode
      ⟨404, [("content-type", "text/html"), ("content-length", "9")], [1, 2, 3]⟩) 400 = false ∧
    (settle photoRequest
      (.ok ⟨404, [("content-type", "text/html"), ("content-length", "9")], [1, 2, 3]⟩)).statusCode
      = 200 := by
  refine ⟨rfl, ?_, ?_, ?_, ?_⟩ <;> decide

/-! ## The bypass branch -/

/-- Scenario B: a 2000-byte `image/png` is forwarded as is, with
`x-proxy-bypass: 1`. -/
theorem scenarioB_bypass :
    handler photoRequest scenarioB =
      { statusCode := 200,
        headers := [("content-type", .str "image/png"), ("content-length", .str "2000"),
          ("content-encoding", .str "identity"), ("x-proxy-bypass", .num (.int 1))],
        headersSent := true, body := [.origin [1, 2, 3]], ends := 1 } := by
  decide

/-- With an origin `content-length` that `setHeader` accepts, a response that
`should_process` rejects is forwarded: status 200, `x-proxy-bypass: 1`,
`content-encoding: identity`, the origin `content-length`, and the origin
stream as body. -/
theorem bypass_with_length (req : Request) (response : AxiosResponse) (length : String)
    (h : should_process (origin_params response) = false)
    (hl : response.header "content-length" = some length)
    (hv : validHeaderValue (.str length) = true) :
    (settle req (.ok response)).statusCode = 200 ∧
    (settle req (.ok response)).body = [.origin response.data] ∧
    (settle req (.ok response)).ends = 1 ∧
    getHeader (settle req (.ok response)) "x-proxy-bypass" = some (.num (.int 1)) ∧
    getHeader (settle req (.ok response)) "content-encoding" = some (.str "identity") ∧
    getHeader (settle req (.ok response)) "content-length" = some (.str length) := by
  obtain ⟨f1, _, _, _⟩ := copyHeaders_frame response.headers res0
  have e : settle req (.ok response) = bypass_res response (.str length) := by
    simp [settle, on_fulfilled_bypass req response h, hl, ofOptString, hv]
  rw [e]
  have l1 : lower "x-proxy-bypass" = "x-proxy-bypass" := by decide
  have l2 : lower "content-encoding" = "content-encoding" := by decide
  have l3 : lower "content-length" = "content-length" := by decide
  refine ⟨by simpa [bypass_res, bypass_pending, identity_res] using f1, rfl, rfl, ?_, ?_, ?_⟩
  · simp only [getHeader, l1, bypass_res, bypass_pending, identity_res]
    rw [lookup_filter_other _ _ _ (by decide), lookup_setEntry_other _ _ _ _ (by decide),
      lookup_setEntry_same]
  · simp only [getHeader, l2, bypass_res, bypass_pending, identity_res]
    rw [lookup_filter_other _ _ _ (by decide), lookup_setEntry_other _ _ _ _ (by decide),
      lookup_setEntry_other _ _ _ _ (by decide), lookup_setEntry_same]
  · simp only [getHeader, l3, bypass_res, bypass_pending, identity_res]
    rw [lookup_filter_other _ _ _ (by decide), lookup_setEntry_same]

/-- Without an origin `content-length`, a response that `should_process`
rejects is not forwarded: setting the header throws and the client gets the
sentinel body. -/
theorem bypass_without_length (req : Request) (response : AxiosResponse)
    (h : should_process (origin_params response) = false)
    (hl : response.header "content-length" = none) :
    (settle req (.ok response)).statusCode = 200 ∧
    (settle req (.ok response)).body = [.text "bandwidth-hero-proxy"] := by
  obtain ⟨_, _, f3, _⟩ := copyHeaders_frame response.headers res0
  have e : settle req (.ok response) = on_rejected (bypass_pending response) := by
    simp [settle, on_fulfilled_bypass req response h, hl, ofOptString, validHeaderValue]
  rw [e]
  refine ⟨rfl, ?_⟩
  simp [on_rejected, endResponse, write, removeHeader, status, bypass_pending, identity_res, f3]
  rfl

/-- C6, the code at a reply without `content-length`: `should_process` rejects
the `text/html` page, yet the body sent is the sentinel string, not the origin
stream; the response carries `x-proxy-bypass: 1`. -/
theorem chunked_page_not_forwarded :
    should_process (origin_params ⟨200, [("content-type", "text/html")], [1, 2, 3]⟩) = false ∧
    handler photoRequest chunkedPage =
      degraded [("content-type", .str "text/html"), ("content-encoding", .str "identity"),
        ("x-proxy-bypass", .num (.int 1))] ∧
    (handler photoRequest chunkedPage).body ≠ [.origin [1, 2, 3]] := by
  decide

end AxiosCC
